import Mathlib

/-!
Verification of `src/scheduler/python/is_live.py`, a calendar liveness probe.

The embedding models timezone-aware datetimes as a wall-clock value plus a
UTC offset, both in integer milliseconds; `astimezone(timezone.utc)` and
aware-datetime comparison act on the absolute instant `wall - offset`.
The external calendar service is a function from requests to responses;
`dateutil.parser.parse` is a parameter `parse : String → Option Timestamp`
(`none` models a raised parse error).  The pagination loop carries fuel:
`none` models a non-terminating loop.  The result of `check_is_live` is
instrumented with the list of issued requests and the count of events that
were passed to `event_is_now`; the counters do not influence control flow.
-/

namespace IsLive

/-- Python truthiness of an optional string: `None` and `""` are falsy. -/
def truthy : Option String → Bool
  | none => false
  | some s => s != ""

/-- A timezone-aware datetime: wall-clock milliseconds and a UTC offset in
milliseconds.  The absolute instant it denotes is `wall - offset`. -/
structure Timestamp where
  wall : Int
  offset : Int
deriving DecidableEq, Repr

/-- `astimezone(timezone.utc)`: the absolute instant, as used by Python's
aware-datetime comparison. -/
def toUTC (t : Timestamp) : Int := t.wall - t.offset

/-- One boundary of an event: the `start` / `end` JSON objects, each with
optional `date` (all-day marker) and `dateTime` fields. -/
structure EventTime where
  date : Option String := none
  dateTime : Option String := none
deriving DecidableEq, Repr

/-- A calendar event as returned by the service: optional `start` / `end`
objects (`ev.get("start", {})` defaults a missing one to `{}`). -/
structure Event where
  start : Option EventTime := none
  end' : Option EventTime := none
deriving DecidableEq, Repr

/-- The function `event_is_now(ev, now)` from `is_live.py`: skip all-day events
(truthy `date` on either boundary), skip events with a missing or empty
`dateTime` on either boundary, otherwise parse both boundaries (a parse
failure raises, modelled by `.error`), normalize to UTC and test
`start_dt <= now_utc < end_dt`. -/
def event_is_now (parse : String → Option Timestamp) (ev : Event) (now : Timestamp) :
    Except String Bool :=
  let start := ev.start.getD {}
  let endb := ev.end'.getD {}
  if truthy start.date || truthy endb.date then .ok false
  else if !truthy start.dateTime || !truthy endb.dateTime then .ok false
  else
    match parse (start.dateTime.getD "") with
    | none => .error "unparseable start dateTime"
    | some start_dt =>
      match parse (endb.dateTime.getD "") with
      | none => .error "unparseable end dateTime"
      | some end_dt =>
        .ok (decide (toUTC start_dt ≤ toUTC now ∧ toUTC now < toUTC end_dt))

/-- A request issued to `service.events().list(...)`. -/
structure Request where
  calendarId : String
  timeMin : Int
  timeMax : Int
  singleEvents : Bool
  orderBy : String
  maxResults : Nat
  pageToken : Option String
deriving DecidableEq, Repr

/-- The request `check_is_live` builds for a given page token. -/
def mkRequest (calId : String) (tmin tmax : Int) (tok : Option String) : Request :=
  ⟨calId, tmin, tmax, true, "startTime", 50, tok⟩

/-- A service response: `items` and an optional `nextPageToken`. -/
structure Response where
  items : List Event := []
  nextPageToken : Option String := none
deriving DecidableEq, Repr

/-- The inner `for ev in resp.get("items", [])` loop of `check_is_live`:
returns the result (`.ok true` on the first live event, an `.error` if
`event_is_now` raises, `.ok false` if the page is exhausted) together with
the number of events passed to `event_is_now`. -/
def scanItems (parse : String → Option Timestamp) (now : Timestamp) :
    List Event → Except String Bool × Nat
  | [] => (.ok false, 0)
  | ev :: rest =>
    match event_is_now parse ev now with
    | .error e => (.error e, 1)
    | .ok true => (.ok true, 1)
    | .ok false =>
      let r := scanItems parse now rest
      (r.1, r.2 + 1)

/-- The `while True` pagination loop of `check_is_live`, instrumented with
the list of issued requests and the count of examined events.  Fuel bounds
the number of iterations; running out of fuel (`none`) models a
non-terminating token chain. -/
def fetchLoop (svc : Request → Response) (parse : String → Option Timestamp)
    (calId : String) (now : Timestamp) (tmin tmax : Int) :
    Nat → Option String → List Request → Nat →
    Option (Except String Bool × List Request × Nat)
  | 0, _, _, _ => none
  | fuel + 1, tok, reqs, seen =>
    let req := mkRequest calId tmin tmax tok
    let resp := svc req
    let scanned := scanItems parse now resp.items
    match scanned.1 with
    | .error e => some (.error e, reqs ++ [req], seen + scanned.2)
    | .ok true => some (.ok true, reqs ++ [req], seen + scanned.2)
    | .ok false =>
      if truthy resp.nextPageToken then
        fetchLoop svc parse calId now tmin tmax fuel resp.nextPageToken
          (reqs ++ [req]) (seen + scanned.2)
      else
        some (.ok false, reqs ++ [req], seen + scanned.2)

/-- The function `check_is_live(calendar_id, lookback_minutes)`: build the query window
`[now - lookback_minutes, now + 1 minute]` (in milliseconds) and run the
pagination loop starting with no page token. -/
def check_is_live (svc : Request → Response) (parse : String → Option Timestamp)
    (calendar_id : String) (now : Timestamp) (lookback_minutes : Int) (fuel : Nat) :
    Option (Except String Bool × List Request × Nat) :=
  let now_utc := toUTC now
  fetchLoop svc parse calendar_id now (now_utc - lookback_minutes * 60000)
    (now_utc + 60000) fuel none [] 0

/-- A JSON record of string fields, as a lookup list (models the per-sheet
record in `config.json`; Python dict truthiness is emptiness). -/
def dictGet (d : List (String × String)) (k : String) : Option String :=
  (d.find? (fun p => p.1 == k)).map Prod.snd

/-- The parsed configuration file: the `"sheets"` mapping
(`config.get("sheets", {})` defaults a missing section to empty). -/
structure Config where
  sheets : List (String × List (String × String)) := []
deriving DecidableEq, Repr

/-- Lookup of a sheet key in the `"sheets"` mapping. -/
def sheetsGet (sheets : List (String × List (String × String))) (k : String) :
    Option (List (String × String)) :=
  (sheets.find? (fun p => p.1 == k)).map Prod.snd

/-- The `SystemExit` message for a missing or unusable config entry. -/
def notFoundMsg (key config_path : String) : String :=
  "calendarId not found for sheet " ++ key ++ " in " ++ config_path

/-- The usage error raised when neither argument is supplied. -/
def usageMsg : String := "either --calendar-id or --sheet must be provided"

/-- The function `resolve_calendar_id(sheet_key, calendar_id_arg, config_path)`:
a truthy explicit identifier is returned unchanged; otherwise a truthy
sheet key is required; the config is then consulted (`loadCfg` is the
outcome of `load_config(config_path)`, whose errors propagate) and the
entry must be a non-empty record with a truthy `calendarId`. -/
def resolve_calendar_id (sheet_key calendar_id_arg : Option String)
    (loadCfg : Except String Config) (config_path : String) : Except String String :=
  if truthy calendar_id_arg then .ok (calendar_id_arg.getD "")
  else if !truthy sheet_key then .error usageMsg
  else
    match loadCfg with
    | .error e => .error e
    | .ok config =>
      let key := sheet_key.getD ""
      match sheetsGet config.sheets key with
      | none => .error (notFoundMsg key config_path)
      | some sheet_cfg =>
        if sheet_cfg.isEmpty || !truthy (dictGet sheet_cfg "calendarId") then
          .error (notFoundMsg key config_path)
        else .ok ((dictGet sheet_cfg "calendarId").getD "")

/-- The function `main` up to the printing step: resolve the calendar id (a `SystemExit`
aborts before any service call), then run `check_is_live`. -/
def mainRun (svc : Request → Response) (parse : String → Option Timestamp)
    (loadCfg : Except String Config) (config_path : String)
    (sheet_key calendar_id_arg : Option String)
    (now : Timestamp) (lookback_minutes : Int) (fuel : Nat) :
    Except String (Option (Except String Bool × List Request × Nat)) :=
  match resolve_calendar_id sheet_key calendar_id_arg loadCfg config_path with
  | .error e => .error e
  | .ok calId => .ok (check_is_live svc parse calId now lookback_minutes fuel)

/-- A service derived from a finite chain of pages: `ServesChain svc calId
tmin tmax tok pages` says that starting from page token `tok`, the service
answers the requests `check_is_live` would issue with the pages of `pages`
in order, linking them with truthy continuation tokens and ending with
`none`. -/
inductive ServesChain (svc : Request → Response) (calId : String) (tmin tmax : Int) :
    Option String → List (List Event) → Prop
  | last (tok : Option String) (items : List Event)
      (h : svc (mkRequest calId tmin tmax tok) = ⟨items, none⟩) :
      ServesChain svc calId tmin tmax tok [items]
  | step (tok : Option String) (items : List Event) (t : String)
      (rest : List (List Event)) (ht : t ≠ "")
      (h : svc (mkRequest calId tmin tmax tok) = ⟨items, some t⟩)
      (hrest : ServesChain svc calId tmin tmax (some t) rest) :
      ServesChain svc calId tmin tmax tok (items :: rest)

/-- A present, non-empty string field is truthy. -/
theorem truthy_some (s : String) (h : s ≠ "") : truthy (some s) = true := by
  simp [truthy, h]

/-- C1: for an event whose boundaries are precise timestamps (no all-day
marker, present non-empty `dateTime` strings, both parseable),
`event_is_now` answers `true` iff `start <= now` and `now < end` after
normalization to UTC — the half-open containment test. -/
theorem event_is_now_half_open (parse : String → Option Timestamp) (ev : Event)
    (now start_dt end_dt : Timestamp) (sdts edts : String)
    (hsd : truthy (ev.start.getD {}).date = false)
    (hed : truthy (ev.end'.getD {}).date = false)
    (hsdt : (ev.start.getD {}).dateTime = some sdts) (hsne : sdts ≠ "")
    (hedt : (ev.end'.getD {}).dateTime = some edts) (hene : edts ≠ "")
    (hps : parse sdts = some start_dt) (hpe : parse edts = some end_dt) :
    event_is_now parse ev now = .ok true ↔
      (toUTC start_dt ≤ toUTC now ∧ toUTC now < toUTC end_dt) := by
  unfold event_is_now
  simp [hsd, hed, hsdt, hedt, truthy_some _ hsne, truthy_some _ hene, hps, hpe]

/-- Concrete parse environment for the `event_is_now` witnesses: maps the
four timestamp strings of the 10:00–11:00 UTC scenario and the two-offset
scenario to their instants (milliseconds since midnight). -/
def parseW : String → Option Timestamp
  | "2024-01-01T10:00:00Z" => some ⟨36000000, 0⟩
  | "2024-01-01T11:00:00Z" => some ⟨39600000, 0⟩
  | "2024-01-01T14:00:00+02:00" => some ⟨50400000, 7200000⟩
  | "2024-01-01T15:00:00+02:00" => some ⟨54000000, 7200000⟩
  | "2024-01-01T07:00:00-05:00" => some ⟨25200000, -18000000⟩
  | "2024-01-01T08:00:00-05:00" => some ⟨28800000, -18000000⟩
  | _ => none

/-- Witness for C1 at the event `[10:00, 11:00)` with `now = 10:00:00`
exactly: the start boundary is live. -/
theorem event_is_now_half_open_witness :
    event_is_now parseW
      ⟨some ⟨none, some "2024-01-01T10:00:00Z"⟩,
       some ⟨none, some "2024-01-01T11:00:00Z"⟩⟩ ⟨36000000, 0⟩ = .ok true ↔
      (toUTC ⟨36000000, 0⟩ ≤ toUTC ⟨36000000, 0⟩ ∧
        toUTC ⟨36000000, 0⟩ < toUTC ⟨39600000, 0⟩) :=
  event_is_now_half_open parseW _ _ _ _ _ _ (by decide) (by decide) rfl
    (by decide) rfl (by decide) rfl rfl

/-- C2: an event with a truthy all-day `date` marker on either boundary, or
with a missing/empty `dateTime` on either boundary, is ineligible:
`event_is_now` returns `false` whatever the other boundary holds. -/
theorem event_is_now_ineligible (parse : String → Option Timestamp) (ev : Event)
    (now : Timestamp)
    (h : truthy (ev.start.getD {}).date = true ∨
         truthy (ev.end'.getD {}).date = true ∨
         truthy (ev.start.getD {}).dateTime = false ∨
         truthy (ev.end'.getD {}).dateTime = false) :
    event_is_now parse ev now = .ok false := by
  unfold event_is_now
  rcases h with h | h | h | h <;> simp [h]

/-- Witness for C2: an all-day event (date marker on both boundaries)
overlapping any `now` is not live. -/
theorem event_is_now_ineligible_witness :
    event_is_now parseW
      ⟨some ⟨some "2024-01-01", none⟩, some ⟨some "2024-01-02", none⟩⟩
      ⟨36000000, 0⟩ = .ok false :=
  event_is_now_ineligible parseW _ _ (Or.inl (by decide))

/-- C5: two events whose boundary strings carry different explicit offsets
but denote the same absolute instants get the same liveness verdict for the
same absolute `now`. -/
theorem event_is_now_tz_invariant (parse : String → Option Timestamp)
    (now s1 e1 s2 e2 : Timestamp) (ss1 es1 ss2 es2 : String)
    (hss1 : ss1 ≠ "") (hes1 : es1 ≠ "") (hss2 : ss2 ≠ "") (hes2 : es2 ≠ "")
    (hp1 : parse ss1 = some s1) (hp2 : parse es1 = some e1)
    (hp3 : parse ss2 = some s2) (hp4 : parse es2 = some e2)
    (_hoff : s1.offset ≠ s2.offset)
    (habs : toUTC s1 = toUTC s2) (habe : toUTC e1 = toUTC e2) :
    event_is_now parse ⟨some ⟨none, some ss1⟩, some ⟨none, some es1⟩⟩ now =
      event_is_now parse ⟨some ⟨none, some ss2⟩, some ⟨none, some es2⟩⟩ now := by
  unfold event_is_now
  simp [truthy, truthy_some _ hss1, truthy_some _ hes1, truthy_some _ hss2,
    truthy_some _ hes2, hp1, hp2, hp3, hp4, habs, habe, hss1, hes1, hss2, hes2]

/-- Witness for C5: the interval expressed at UTC+2 and the same absolute
interval expressed at UTC-5 agree on liveness at `now = 12:30 UTC`. -/
theorem event_is_now_tz_invariant_witness :
    event_is_now parseW
      ⟨some ⟨none, some "2024-01-01T14:00:00+02:00"⟩,
       some ⟨none, some "2024-01-01T15:00:00+02:00"⟩⟩ ⟨45000000, 0⟩ =
    event_is_now parseW
      ⟨some ⟨none, some "2024-01-01T07:00:00-05:00"⟩,
       some ⟨none, some "2024-01-01T08:00:00-05:00"⟩⟩ ⟨45000000, 0⟩ :=
  event_is_now_tz_invariant parseW _ _ _ _ _ _ _ _ _ (by decide) (by decide)
    (by decide) (by decide) rfl rfl rfl rfl (by decide) (by decide) (by decide)

/-- C10: for an event whose boundaries carry present, non-empty `dateTime`
strings, a parse failure on either string makes `event_is_now` raise
(`.error`) rather than answer not-live, and a boolean answer is only
produced when both strings parse. -/
theorem event_is_now_raises_on_unparseable (parse : String → Option Timestamp)
    (ev : Event) (now : Timestamp) (sdts edts : String)
    (hsd : truthy (ev.start.getD {}).date = false)
    (hed : truthy (ev.end'.getD {}).date = false)
    (hsdt : (ev.start.getD {}).dateTime = some sdts) (hsne : sdts ≠ "")
    (hedt : (ev.end'.getD {}).dateTime = some edts) (hene : edts ≠ "") :
    ((parse sdts = none ∨ parse edts = none) →
      ∃ e, event_is_now parse ev now = .error e) ∧
    (∀ b, event_is_now parse ev now = .ok b →
      (parse sdts).isSome ∧ (parse edts).isSome) := by
  unfold event_is_now
  cases hs : parse sdts <;> cases hp : parse edts <;>
    simp [hsd, hed, hsdt, hedt, truthy_some _ hsne, truthy_some _ hene, hs, hp]

/-- Witness for C10: both boundary strings present and non-empty but
unparseable — `event_is_now` raises. -/
theorem event_is_now_raises_on_unparseable_witness :
    ((parseW "garbage" = none ∨ parseW "junk" = none) →
      ∃ e, event_is_now parseW
        ⟨some ⟨none, some "garbage"⟩, some ⟨none, some "junk"⟩⟩
        ⟨36000000, 0⟩ = .error e) ∧
    (∀ b, event_is_now parseW
        ⟨some ⟨none, some "garbage"⟩, some ⟨none, some "junk"⟩⟩
        ⟨36000000, 0⟩ = .ok b →
      (parseW "garbage").isSome ∧ (parseW "junk").isSome) :=
  event_is_now_raises_on_unparseable parseW _ _ _ _ (by decide) (by decide)
    rfl (by decide) rfl (by decide)

/-- A page on which every event evaluates not-live is scanned in full. -/
theorem scanItems_all_false (parse : String → Option Timestamp) (now : Timestamp)
    (l : List Event) (h : ∀ ev ∈ l, event_is_now parse ev now = .ok false) :
    scanItems parse now l = (.ok false, l.length) := by
  induction l with
  | nil => rfl
  | cons ev rest ih =>
    have hev := h ev (List.mem_cons_self ev rest)
    have hrest := ih (fun e he => h e (List.mem_cons_of_mem _ he))
    simp [scanItems, hev, hrest]

/-- Across a finite chain of pages with no live event, the pagination loop
issues one request per page and counts every event of every page. -/
theorem fetchLoop_chain_not_live (svc : Request → Response)
    (parse : String → Option Timestamp) (calId : String) (now : Timestamp)
    (tmin tmax : Int) :
    ∀ (pages : List (List Event)) (tok : Option String),
      ServesChain svc calId tmin tmax tok pages →
      (∀ page ∈ pages, ∀ ev ∈ page, event_is_now parse ev now = .ok false) →
      ∀ fuel, pages.length ≤ fuel → ∀ (reqs0 : List Request) (seen0 : Nat),
      ∃ reqs,
        fetchLoop svc parse calId now tmin tmax fuel tok reqs0 seen0 =
          some (.ok false, reqs, seen0 + (pages.map List.length).sum) ∧
        reqs.length = reqs0.length + pages.length := by
  intro pages tok hchain
  induction hchain with
  | last tok items h =>
    intro hnl fuel hfuel reqs0 seen0
    match fuel, hfuel with
    | fuel + 1, _ =>
      have hscan := scanItems_all_false parse now items
        (hnl items (List.mem_cons_self items []))
      refine ⟨reqs0 ++ [mkRequest calId tmin tmax tok], ?_, by simp⟩
      simp [fetchLoop, h, hscan, truthy]
  | step tok items t rest ht h hrest ih =>
    intro hnl fuel hfuel reqs0 seen0
    match fuel, hfuel with
    | fuel + 1, hfuel =>
      have hscan := scanItems_all_false parse now items
        (hnl items (List.mem_cons_self items rest))
      have hfuel' : rest.length ≤ fuel := by
        simp only [List.length_cons] at hfuel; omega
      obtain ⟨reqs, heq, hlen⟩ := ih
        (fun page hp => hnl page (List.mem_cons_of_mem _ hp)) fuel hfuel'
        (reqs0 ++ [mkRequest calId tmin tmax tok]) (seen0 + items.length)
      refine ⟨reqs, ?_, ?_⟩
      · simp only [fetchLoop, h, hscan, truthy_some t ht, if_true]
        rw [heq]
        simp [Nat.add_assoc]
      · simp only [List.length_append, List.length_cons, List.length_nil] at hlen ⊢
        omega

/-- C3: when the service serves a finite chain of pages none of whose events
is live, `check_is_live` issues one request per page — following the
continuation tokens and stopping when none is returned — examines every
event of every page, and returns false. -/
theorem check_is_live_pagination (svc : Request → Response)
    (parse : String → Option Timestamp) (calId : String) (now : Timestamp)
    (lookback_minutes : Int) (fuel : Nat) (pages : List (List Event))
    (hchain : ServesChain svc calId (toUTC now - lookback_minutes * 60000)
      (toUTC now + 60000) none pages)
    (hnl : ∀ page ∈ pages, ∀ ev ∈ page, event_is_now parse ev now = .ok false)
    (hfuel : pages.length ≤ fuel) :
    ∃ reqs,
      check_is_live svc parse calId now lookback_minutes fuel =
        some (.ok false, reqs, (pages.map List.length).sum) ∧
      reqs.length = pages.length := by
  obtain ⟨reqs, heq, hlen⟩ := fetchLoop_chain_not_live svc parse calId now _ _
    pages none hchain hnl fuel hfuel [] 0
  exact ⟨reqs, by simpa [check_is_live] using heq, by simpa using hlen⟩

/-- Service double for the C3 witness: three pages of sizes 50, 50 and 7,
the first two carrying continuation tokens. -/
def svc3 : Request → Response := fun req =>
  match req.pageToken with
  | none => ⟨List.replicate 50 {}, some "page2"⟩
  | some "page2" => ⟨List.replicate 50 {}, some "page3"⟩
  | some "page3" => ⟨List.replicate 7 {}, none⟩
  | some _ => ⟨[], none⟩

/-- The pages served by `svc3`. -/
def pages3 : List (List Event) :=
  [List.replicate 50 {}, List.replicate 50 {}, List.replicate 7 {}]

/-- Witness for C3: pages of sizes 50, 50 and 7 with tokens on the first
two yield 107 examined events, 3 requests and a false result. -/
theorem check_is_live_pagination_witness :
    ∃ reqs,
      check_is_live svc3 parseW "cal123" ⟨45000000, 0⟩ 720 3 =
        some (.ok false, reqs, 107) ∧
      reqs.length = 3 := by
  have hchain : ServesChain svc3 "cal123" (toUTC ⟨45000000, 0⟩ - 720 * 60000)
      (toUTC ⟨45000000, 0⟩ + 60000) none pages3 := by
    refine ServesChain.step none _ "page2" _ (by decide) rfl ?_
    refine ServesChain.step (some "page2") _ "page3" _ (by decide) rfl ?_
    exact ServesChain.last (some "page3") _ rfl
  have hnl : ∀ page ∈ pages3, ∀ ev ∈ page,
      event_is_now parseW ev ⟨45000000, 0⟩ = .ok false := by
    intro page hp ev hev
    have hev' : ev = {} := by
      simp only [pages3, List.mem_cons, List.not_mem_nil, or_false] at hp
      rcases hp with h | h | h <;> exact List.eq_of_mem_replicate (h ▸ hev)
    rw [hev']; rfl
  obtain ⟨reqs, heq, hlen⟩ := check_is_live_pagination svc3 parseW "cal123"
    ⟨45000000, 0⟩ 720 3 pages3 hchain hnl (by decide)
  exact ⟨reqs, by simpa [pages3] using heq, by simpa [pages3] using hlen⟩

/-- C4: if scanning the first page (requested with no page token) finds a
live event, `check_is_live` returns true after that single request — no
second page is ever fetched. -/
theorem check_is_live_short_circuit (svc : Request → Response)
    (parse : String → Option Timestamp) (calId : String) (now : Timestamp)
    (lookback_minutes : Int) (fuel : Nat)
    (h : (scanItems parse now (svc (mkRequest calId
        (toUTC now - lookback_minutes * 60000) (toUTC now + 60000)
        none)).items).1 = .ok true) :
    ∃ seen,
      check_is_live svc parse calId now lookback_minutes (fuel + 1) =
        some (.ok true,
          [mkRequest calId (toUTC now - lookback_minutes * 60000)
            (toUTC now + 60000) none], seen) := by
  refine ⟨(scanItems parse now (svc (mkRequest calId
    (toUTC now - lookback_minutes * 60000) (toUTC now + 60000)
    none)).items).2, ?_⟩
  simp [check_is_live, fetchLoop, h]

/-- Service double for the C4 witness: a live event on the first page and a
continuation token pointing to a second page. -/
def svc4 : Request → Response := fun req =>
  match req.pageToken with
  | none =>
    ⟨[⟨some ⟨none, some "2024-01-01T10:00:00Z"⟩,
       some ⟨none, some "2024-01-01T11:00:00Z"⟩⟩], some "page2"⟩
  | some _ => ⟨[], none⟩

/-- Witness for C4: with a live first-page event at `now = 10:30 UTC`,
`check_is_live` answers true with exactly one issued request even though a
continuation token was offered. -/
theorem check_is_live_short_circuit_witness :
    ∃ seen,
      check_is_live svc4 parseW "cal123" ⟨37800000, 0⟩ 720 2 =
        some (.ok true,
          [mkRequest "cal123" (toUTC ⟨37800000, 0⟩ - 720 * 60000)
            (toUTC ⟨37800000, 0⟩ + 60000) none], seen) :=
  check_is_live_short_circuit svc4 parseW "cal123" ⟨37800000, 0⟩ 720 1 rfl

/-- Every request issued by the pagination loop either was already in the
accumulator or carries the window, calendar id and fixed query parameters
the loop was started with. -/
theorem fetchLoop_requests (svc : Request → Response)
    (parse : String → Option Timestamp) (calId : String) (now : Timestamp)
    (tmin tmax : Int) :
    ∀ (fuel : Nat) (tok : Option String) (reqs0 : List Request) (seen0 : Nat)
      (r : Except String Bool) (reqs : List Request) (seen : Nat),
      fetchLoop svc parse calId now tmin tmax fuel tok reqs0 seen0 =
        some (r, reqs, seen) →
      ∀ req ∈ reqs, req ∈ reqs0 ∨
        (req.calendarId = calId ∧ req.timeMin = tmin ∧ req.timeMax = tmax ∧
          req.singleEvents = true ∧ req.orderBy = "startTime" ∧
          req.maxResults = 50) := by
  intro fuel
  induction fuel with
  | zero =>
    intro tok reqs0 seen0 r reqs seen h
    exact absurd h (by simp [fetchLoop])
  | succ fuel ih =>
    intro tok reqs0 seen0 r reqs seen h req hreq
    have hmem : req ∈ reqs0 ++ [mkRequest calId tmin tmax tok] →
        req ∈ reqs0 ∨
          (req.calendarId = calId ∧ req.timeMin = tmin ∧ req.timeMax = tmax ∧
            req.singleEvents = true ∧ req.orderBy = "startTime" ∧
            req.maxResults = 50) := by
      intro hq
      rcases List.mem_append.mp hq with hq | hq
      · exact Or.inl hq
      · right
        simp only [List.mem_singleton] at hq
        subst hq
        simp [mkRequest]
    simp only [fetchLoop] at h
    split at h
    · simp only [Option.some.injEq, Prod.mk.injEq] at h
      refine hmem ?_
      rw [h.2.1]
      exact hreq
    · simp only [Option.some.injEq, Prod.mk.injEq] at h
      refine hmem ?_
      rw [h.2.1]
      exact hreq
    · split at h
      · rcases ih _ _ _ _ _ _ h req hreq with hq | hq
        · exact hmem hq
        · exact Or.inr hq
      · simp only [Option.some.injEq, Prod.mk.injEq] at h
        refine hmem ?_
        rw [h.2.1]
        exact hreq

/-- C8: every request `check_is_live` issues queries the window from
`now` minus the lookback (in minutes) to `now` plus exactly one minute. -/
theorem check_is_live_window (svc : Request → Response)
    (parse : String → Option Timestamp) (calId : String) (now : Timestamp)
    (lookback_minutes : Int) (fuel : Nat) (r : Except String Bool)
    (reqs : List Request) (seen : Nat)
    (h : check_is_live svc parse calId now lookback_minutes fuel =
      some (r, reqs, seen)) :
    ∀ req ∈ reqs, req.timeMin = toUTC now - lookback_minutes * 60000 ∧
      req.timeMax = toUTC now + 60000 := by
  intro req hreq
  simp only [check_is_live] at h
  rcases fetchLoop_requests svc parse calId now _ _ fuel none [] 0 r reqs seen
      h req hreq with h' | h'
  · exact absurd h' (List.not_mem_nil req)
  · exact ⟨h'.2.1, h'.2.2.1⟩

/-- Witness for C8: a single empty page at `now = 12:30 UTC` with the
default 720-minute lookback; the sole issued request carries the window
`[now - 720 min, now + 1 min]`. -/
theorem check_is_live_window_witness :
    (check_is_live (fun _ => ⟨[], none⟩) parseW "cal123" ⟨45000000, 0⟩ 720 1 =
      some (.ok false, [mkRequest "cal123" 1800000 45060000 none], 0)) ∧
    ∀ req ∈ [mkRequest "cal123" 1800000 45060000 none],
      req.timeMin = toUTC ⟨45000000, 0⟩ - 720 * 60000 ∧
      req.timeMax = toUTC ⟨45000000, 0⟩ + 60000 :=
  ⟨rfl, check_is_live_window (fun _ => ⟨[], none⟩) parseW "cal123"
    ⟨45000000, 0⟩ 720 1 (.ok false) [mkRequest "cal123" 1800000 45060000 none]
    0 rfl⟩

/-- C6: a truthy explicit calendar identifier is returned unchanged — with
or without a sheet key, and whatever the outcome of reading the config file
would be, so the file is never consulted. -/
theorem resolve_calendar_id_explicit (sheet_key : Option String) (cid : String)
    (hcid : cid ≠ "") (loadCfg : Except String Config) (config_path : String) :
    resolve_calendar_id sheet_key (some cid) loadCfg config_path = .ok cid := by
  simp [resolve_calendar_id, truthy_some cid hcid]

/-- Witness for C6: an explicit identifier wins over a supplied sheet key
even when loading the config would fail. -/
theorem resolve_calendar_id_explicit_witness :
    resolve_calendar_id (some "A") (some "cal123")
      (.error "config file missing") "scheduler/config.json" = .ok "cal123" :=
  resolve_calendar_id_explicit (some "A") "cal123" (by decide)
    (.error "config file missing") "scheduler/config.json"

/-- C7: without an explicit identifier, a truthy sheet key whose entry is
missing from the `"sheets"` mapping, or whose record is empty or lacks a
truthy `calendarId`, makes resolution fail with the configuration error
naming the key, and the pipeline never invokes the event service. -/
theorem resolve_calendar_id_not_found (calendar_id_arg : Option String)
    (key : String) (config : Config) (config_path : String)
    (hcid : truthy calendar_id_arg = false) (hkey : key ≠ "")
    (hent : sheetsGet config.sheets key = none ∨
      ∃ sheet_cfg, sheetsGet config.sheets key = some sheet_cfg ∧
        (sheet_cfg.isEmpty || !truthy (dictGet sheet_cfg "calendarId")) = true) :
    resolve_calendar_id (some key) calendar_id_arg (.ok config) config_path =
      .error (notFoundMsg key config_path) ∧
    ∀ (svc : Request → Response) (parse : String → Option Timestamp)
      (now : Timestamp) (lookback_minutes : Int) (fuel : Nat),
      mainRun svc parse (.ok config) config_path (some key) calendar_id_arg
          now lookback_minutes fuel =
        .error (notFoundMsg key config_path) := by
  have hres : resolve_calendar_id (some key) calendar_id_arg (.ok config)
      config_path = .error (notFoundMsg key config_path) := by
    rcases hent with hent | ⟨sheet_cfg, hget, hbad⟩ <;>
      simp [resolve_calendar_id, hcid, truthy_some key hkey, *]
  exact ⟨hres, fun svc parse now m fuel => by simp [mainRun, hres]⟩

/-- Witness for C7: sheet key `"A"` absent from an empty config — the
resolver and the whole pipeline fail with the configuration error, with no
service call. -/
theorem resolve_calendar_id_not_found_witness :
    (resolve_calendar_id (some "A") none (.ok ⟨[]⟩) "scheduler/config.json" =
      .error (notFoundMsg "A" "scheduler/config.json")) ∧
    ∀ (svc : Request → Response) (parse : String → Option Timestamp)
      (now : Timestamp) (lookback_minutes : Int) (fuel : Nat),
      mainRun svc parse (.ok ⟨[]⟩) "scheduler/config.json" (some "A") none
          now lookback_minutes fuel =
        .error (notFoundMsg "A" "scheduler/config.json") :=
  resolve_calendar_id_not_found none "A" ⟨[]⟩ "scheduler/config.json" rfl
    (by decide) (Or.inl rfl)

/-- C9: an explicit identifier that is the empty string is falsy, so the
resolver behaves exactly as if no identifier had been passed: it follows
the sheet-key path, and when the key is also absent or empty it exits with
the usage error. -/
theorem resolve_calendar_id_empty_arg (sheet_key : Option String)
    (loadCfg : Except String Config) (config_path : String) :
    resolve_calendar_id sheet_key (some "") loadCfg config_path =
      resolve_calendar_id sheet_key none loadCfg config_path ∧
    resolve_calendar_id none (some "") loadCfg config_path = .error usageMsg ∧
    resolve_calendar_id (some "") (some "") loadCfg config_path =
      .error usageMsg := by
  refine ⟨?_, ?_, ?_⟩ <;> simp [resolve_calendar_id, truthy]

end IsLive
